import Mathlib

/-!
Verification development for the ts-x-stratum repository: a shallow
embedding of the block-template engine (`src/lib/blockTemplate.js`), the
Stratum session / server code bundled in the same file, and the P2P peer
message parser (`src/src/peer.ts`), together with theorems settling the
frozen claims about them.

Buffers are modelled as `List Nat` of byte values, strings as Lean
`String`, and JS `undefined`/`null` as `Option`.
-/

namespace TsXStratum

/-! ## Byte utilities (Node `Buffer` semantics used by the sources) -/

/-- Value of one hexadecimal digit, `none` on a non-hex character
(Node stops decoding at the first invalid pair). -/
def hexDigit? (c : Char) : Option Nat :=
  if '0' ≤ c ∧ c ≤ '9' then some (c.toNat - '0'.toNat)
  else if 'a' ≤ c ∧ c ≤ 'f' then some (c.toNat - 'a'.toNat + 10)
  else if 'A' ≤ c ∧ c ≤ 'F' then some (c.toNat - 'A'.toNat + 10)
  else none

/-- Decode leading hex-digit pairs into bytes; decoding stops at the first
character pair that is not two hex digits, and a dangling last digit is
dropped — the behaviour of `Buffer.from(s, 'hex')` / `buf.write(s, …, 'hex')`. -/
def hexPairsAux : List Char → List Nat
  | c1 :: c2 :: rest =>
    match hexDigit? c1, hexDigit? c2 with
    | some h, some l => (16 * h + l) :: hexPairsAux rest
    | _, _ => []
  | _ => []

/-- Bytes denoted by a hex string (see `hexPairsAux`). -/
def hexPairs (s : String) : List Nat := hexPairsAux s.data

/-- Overwrite `buf` starting at `pos` with `bytes`, never growing the buffer:
the semantics of `buf.write`/`buf.writeUInt32BE` for in-range writes. -/
def writeBytes (buf : List Nat) (pos : Nat) (bytes : List Nat) : List Nat :=
  buf.take pos ++ bytes.take (buf.length - pos) ++
    buf.drop (pos + (bytes.take (buf.length - pos)).length)

/-- Model of `buf.write(s, pos, len, 'hex')`: decode `s` as hex and write at
most `len` bytes at offset `pos`. -/
def bufWriteHex (buf : List Nat) (s : String) (pos len : Nat) : List Nat :=
  writeBytes buf pos ((hexPairs s).take len)

/-- Big-endian bytes of a 32-bit value (`buf.writeUInt32BE`). -/
def u32be (v : Nat) : List Nat :=
  [v / 16777216 % 256, v / 65536 % 256, v / 256 % 256, v % 256]

/-- Little-endian bytes of a 16-bit value. -/
def u16le (v : Nat) : List Nat := [v % 256, v / 256 % 256]

/-- Little-endian bytes of a 32-bit value (`util.packUInt32LE`). -/
def u32le (v : Nat) : List Nat :=
  [v % 256, v / 256 % 256, v / 65536 % 256, v / 16777216 % 256]

/-- Little-endian bytes of a 64-bit value (`util.packInt64LE`). -/
def u64le (v : Nat) : List Nat :=
  [v % 256, v / 256 % 256, v / 65536 % 256, v / 16777216 % 256,
   v / 4294967296 % 256, v / 1099511627776 % 256,
   v / 281474976710656 % 256, v / 72057594037927936 % 256]

/-- Model of `buf.writeUInt32BE(v, pos)`. -/
def writeUInt32BE (buf : List Nat) (v pos : Nat) : List Nat :=
  writeBytes buf pos (u32be v)

/-- Model of `util.reverseBuffer`: full byte reversal. -/
def reverseBuffer (b : List Nat) : List Nat := b.reverse

/-- Model of `buf.readUInt32LE(0)`: `none` when fewer than 4 bytes are
available (Node throws a `RangeError` there). -/
def readUInt32LE? : List Nat → Option Nat
  | b0 :: b1 :: b2 :: b3 :: _ => some (b0 + 256 * b1 + 65536 * b2 + 16777216 * b3)
  | _ => none

/-! ## Block template (`src/lib/blockTemplate.js`, class `BlockTemplate`) -/

/-- The fields of `rpcData` that the block-template methods read.
Transactions are kept as their raw `data` hex strings; `votes` are hex blobs. -/
structure RpcData where
  previousblockhash : String
  bits : String
  version : Nat
  curtime : Nat
  transactions : List String
  masternode_payments : Bool
  votes : List String
deriving DecidableEq

/-- The `BlockTemplate` state the claims touch: its `rpcData`, the reward
tag and the `submits` array of fingerprints. -/
structure BlockTemplate where
  rpcData : RpcData
  reward : String
  submits : List String
deriving DecidableEq

/-- Constructor slice relevant here: `this.submits = []`. -/
def mkBlockTemplate (rpc : RpcData) (reward : String) : BlockTemplate :=
  { rpcData := rpc, reward := reward, submits := [] }

/-- Constructor field `this.transactionData`: concatenation of every raw
transaction, each decoded from hex. -/
def transactionData (t : BlockTemplate) : List Nat :=
  (t.rpcData.transactions.map hexPairs).flatten

/-- Method `serializeHeader(merkleRoot, nTime, nonce)`: an 80-byte buffer is
filled in reversed field order (nonce at 0, bits at 4, nTime at 8,
merkleRoot at 12, previousblockhash at 44, version written big-endian at
76) and then reversed as a whole.  `new Buffer(80)` is modelled as
zero-filled; with full-length inputs every byte is overwritten anyway. -/
def serializeHeader (t : BlockTemplate) (merkleRoot nTime nonce : String) : List Nat :=
  let header := List.replicate 80 0
  let header := bufWriteHex header nonce 0 4
  let header := bufWriteHex header t.rpcData.bits 4 4
  let header := bufWriteHex header nTime 8 4
  let header := bufWriteHex header merkleRoot 12 32
  let header := bufWriteHex header t.rpcData.previousblockhash 44 32
  let header := writeUInt32BE header t.rpcData.version 76
  reverseBuffer header

/-- Modelled from the spec: `util.varIntBuffer` (the file `lib/util.js` is
required by the sources but is not among them).  Spec §4.A: Bitcoin
CompactSize — `n < 0xfd`: 1 byte; `< 0x10000`: `0xfd` + u16 LE;
`< 0x1_0000_0000`: `0xfe` + u32 LE; else `0xff` + u64 LE. -/
def varIntBuffer (n : Nat) : List Nat :=
  if n < 0xfd then [n]
  else if n < 0x10000 then 0xfd :: u16le n
  else if n < 0x100000000 then 0xfe :: u32le n
  else 0xff :: u64le n

/-- Spec-side reading direction for `varIntBuffer`, used to state that the
transaction-count field of a serialized block denotes the intended number:
decode one CompactSize value and return it with the remaining bytes. -/
def decodeVarInt : List Nat → Option (Nat × List Nat)
  | [] => none
  | b :: rest =>
    if b < 0xfd then some (b, rest)
    else if b = 0xfd then
      match rest with
      | x0 :: x1 :: r => some (x0 + 256 * x1, r)
      | _ => none
    else if b = 0xfe then
      match rest with
      | x0 :: x1 :: x2 :: x3 :: r =>
        some (x0 + 256 * x1 + 65536 * x2 + 16777216 * x3, r)
      | _ => none
    else
      match rest with
      | x0 :: x1 :: x2 :: x3 :: x4 :: x5 :: x6 :: x7 :: r =>
        some (x0 + 256 * x1 + 65536 * x2 + 16777216 * x3 + 4294967296 * x4 +
              1099511627776 * x5 + 281474976710656 * x6 + 72057594037927936 * x7, r)
      | _ => none

/-- Method `getVoteData()`: empty unless `masternode_payments` is set, in
which case `varInt(votes.length)` followed by the decoded vote blobs. -/
def getVoteData (t : BlockTemplate) : List Nat :=
  if !t.rpcData.masternode_payments then []
  else varIntBuffer t.rpcData.votes.length ++ (t.rpcData.votes.map hexPairs).flatten

/-- Method `serializeBlock(header, coinbase)`. -/
def serializeBlock (t : BlockTemplate) (header coinbase : List Nat) : List Nat :=
  header ++ varIntBuffer (t.rpcData.transactions.length + 1) ++ coinbase ++
    transactionData t ++ getVoteData t ++
    (if t.reward = "POS" then [0] else [])

/-- Method `registerSubmit(extraNonce1, extraNonce2, nTime, nonce)`: the
fingerprint is the string concatenation of the four arguments; it is pushed
and `true` returned when `indexOf` finds no occurrence, else `false`. -/
def registerSubmit (t : BlockTemplate) (extraNonce1 extraNonce2 nTime nonce : String) :
    Bool × BlockTemplate :=
  let submission := extraNonce1 ++ extraNonce2 ++ nTime ++ nonce
  if submission ∈ t.submits then (false, t)
  else (true, { t with submits := t.submits ++ [submission] })

/-- A submission 4-tuple `(extraNonce1, extraNonce2, nTime, nonce)`. -/
abbrev SubmitTuple := String × String × String × String

/-- The fingerprint `registerSubmit` computes for a tuple. -/
def fingerprintOf (x : SubmitTuple) : String :=
  x.1 ++ x.2.1 ++ x.2.2.1 ++ x.2.2.2

/-- Run a sequence of `registerSubmit` calls on a template, collecting each
call's boolean result and the final template. -/
def runSubmits (t : BlockTemplate) : List SubmitTuple → List Bool × BlockTemplate
  | [] => ([], t)
  | x :: xs =>
    let r := registerSubmit t x.1 x.2.1 x.2.2.1 x.2.2.2
    let rest := runSubmits r.2 xs
    (r.1 :: rest.1, rest.2)

/-! ## Stratum client session transport (`setupSocket`, lines 482-539)

JS string helpers are re-modelled structurally so every theorem below can be
evaluated by the kernel. -/

/-- UTF-8 size of one code point, as `Buffer.byteLength(…, 'utf8')` counts it. -/
def utf8SizeOfChar (c : Char) : Nat :=
  if c.toNat ≤ 0x7F then 1
  else if c.toNat ≤ 0x7FF then 2
  else if c.toNat ≤ 0xFFFF then 3
  else 4

/-- Model of `Buffer.byteLength(s, 'utf8')`. -/
def byteLengthUtf8 (s : String) : Nat := (s.data.map utf8SizeOfChar).sum

/-- Split a character list on newline characters, JS `split('\n')` style. -/
def splitNewlinesAux : List Char → List Char → List String
  | [], acc => [String.mk acc.reverse]
  | c :: rest, acc =>
    if c = '\n' then String.mk acc.reverse :: splitNewlinesAux rest []
    else splitNewlinesAux rest (c :: acc)

/-- Model of `dataBuffer.split('\n')`. -/
def splitNewlines (s : String) : List String := splitNewlinesAux s.data []

/-- Model of `dataBuffer.indexOf('\n') !== -1`. -/
def containsNewline (s : String) : Bool := s.data.contains '\n'

/-- Model of `dataBuffer.slice(-1) === '\n'`. -/
def lastCharIsNewline (s : String) : Bool := s.data.getLast? == some '\n'

/-- Model of `d.indexOf('PROXY') === 0`. -/
def startsWithProxy (d : String) : Bool := d.data.take 5 == "PROXY".data

/-- The catch branch of the line parser (lines 519-522): `malformedMessage`
is emitted and the socket destroyed iff
`this.options.tcpProxyProtocol !== true || d.indexOf('PROXY') !== 0`,
where `d` is the incoming chunk. -/
def malformedEmits (tcpProxyProtocol : Bool) (d : String) : Bool :=
  !tcpProxyProtocol || !startsWithProxy d

/-- What a chunk of session input produces.  `dispatched j` records a call
`handleMessage(messageJson)`; JSON values are abstract (`α`), since
`JSON.parse` is a JS builtin outside the repository. -/
inductive SessionEvent (α : Type) where
  | socketFlooded : SessionEvent α
  | malformedMessage (msg : String) : SessionEvent α
  | dispatched (j : α) : SessionEvent α
deriving DecidableEq

/-- Result of feeding one `data` chunk to the session: the retained
`dataBuffer`, the events emitted, and whether `socket.destroy()` ran. -/
structure DataResult (α : Type) where
  buffer : String
  events : List (SessionEvent α)
  destroyed : Bool
deriving DecidableEq

/-- The `messages.forEach` body (lines 511-528): empty strings are skipped;
a message that fails to parse emits `malformedMessage` and destroys the
socket unless the proxy exception applies — and the loop then continues
with the remaining messages; a parsed value is dispatched only when truthy
(`if (messageJson)`). -/
def processMessages {α : Type} (parse : String → Option α) (truthy : α → Bool)
    (tcpProxyProtocol : Bool) (d : String) :
    List String → List (SessionEvent α) × Bool
  | [] => ([], false)
  | m :: ms =>
    let rest := processMessages parse truthy tcpProxyProtocol d ms
    if m = "" then rest
    else
      match parse m with
      | none =>
        if malformedEmits tcpProxyProtocol d then
          (SessionEvent.malformedMessage m :: rest.1, true)
        else rest
      | some j =>
        if truthy j then (SessionEvent.dispatched j :: rest.1, rest.2)
        else rest

/-- The `socket.on('data', …)` handler (lines 500-530): append the chunk;
if the buffer now exceeds 10240 UTF-8 bytes, clear it, emit
`socketFlooded` and destroy the socket before any dispatch; otherwise,
when a newline is present, split, keep the trailing fragment, and run the
messages through `processMessages`. -/
def processData {α : Type} (parse : String → Option α) (truthy : α → Bool)
    (tcpProxyProtocol : Bool) (dataBufferPrev chunk : String) : DataResult α :=
  let dataBuffer := dataBufferPrev ++ chunk
  if byteLengthUtf8 dataBuffer > 10240 then
    ⟨"", [SessionEvent.socketFlooded], true⟩
  else if containsNewline dataBuffer then
    let parts := splitNewlines dataBuffer
    let messages := if lastCharIsNewline dataBuffer then parts else parts.dropLast
    let incomplete := if lastCharIsNewline dataBuffer then "" else parts.getLastD ""
    let r := processMessages parse truthy tcpProxyProtocol chunk messages
    ⟨incomplete, r.1, r.2⟩
  else
    ⟨dataBuffer, [], false⟩

/-! ## Stratum client difficulty handshake (lines 540-567) -/

/-- The per-session fields the difficulty handshake reads and writes.
`difficulty` starts out `undefined` (the constructor never assigns it);
`pendingDifficulty` starts out `null`. -/
structure ClientState where
  difficulty : Option ℚ
  previousDifficulty : Option ℚ
  pendingDifficulty : Option ℚ
  extraNonce1 : Option String
deriving DecidableEq

/-- Session state right after the `StratumClient` constructor. -/
def initClient : ClientState :=
  { difficulty := none, previousDifficulty := none,
    pendingDifficulty := none, extraNonce1 := none }

/-- Server-initiated notifications a session writes. -/
inductive StratumNotification where
  | set_difficulty (d : ℚ) : StratumNotification
  | notify (params : String) : StratumNotification
deriving DecidableEq

/-- Method `enqueueNextDifficulty` (lines 540-543): stage without sending. -/
def enqueueNextDifficulty (c : ClientState) (requestedNewDifficulty : ℚ) :
    ClientState × Bool :=
  ({ c with pendingDifficulty := some requestedNewDifficulty }, true)

/-- Method `sendDifficulty` (lines 545-556): a no-op returning `false` when
the argument strictly equals the current difficulty; otherwise rotate the
difficulties and emit a `mining.set_difficulty` notification. -/
def sendDifficulty (c : ClientState) (difficulty : ℚ) :
    ClientState × List StratumNotification × Bool :=
  if c.difficulty = some difficulty then (c, [], false)
  else ({ c with previousDifficulty := c.difficulty, difficulty := some difficulty },
        [StratumNotification.set_difficulty difficulty], true)

/-- Method `manuallySetValues` (lines 562-566): copy `extraNonce1`,
`previousDifficulty` and `difficulty` from another client, sending nothing. -/
def manuallySetValues (c otherClient : ClientState) : ClientState :=
  { c with extraNonce1 := otherClient.extraNonce1,
           previousDifficulty := otherClient.previousDifficulty,
           difficulty := otherClient.difficulty }

/-- Modelled from the spec: `StratumClient.sendMiningJob` is not among the
source files — `broadcastMiningJobs` calls it on every client but the
method body itself is missing.  Spec §4.F: "`sendMiningJob(params)` sends a
`mining.notify` with the 9-tuple from §4.D.  Before it, if
`pendingDifficulty` is set, flush it via `sendDifficulty`."  Flushing
clears the pending slot.  Job params are carried opaquely. -/
def sendMiningJob (c : ClientState) (params : String) :
    ClientState × List StratumNotification :=
  match c.pendingDifficulty with
  | some d =>
    let r := sendDifficulty c d
    ({ r.1 with pendingDifficulty := none },
     r.2.1 ++ [StratumNotification.notify params])
  | none => (c, [StratumNotification.notify params])

/-- Method `StratumServer.broadcastMiningJobs` (lines 643-652), restricted
to its per-client effect: call `sendMiningJob` on every registered client
(the rebroadcast timer only re-arms a timeout event). -/
def broadcastMiningJobs (clients : List ClientState) (jobParams : String) :
    List (ClientState × List StratumNotification) :=
  clients.map (fun c => sendMiningJob c jobParams)

/-! ## Stratum server client table and disconnect wiring
(`handleNewClient` lines 619-641, `setupSocket` close handler lines 532-534) -/

/-- Server-side state the disconnect path touches.  `serverSubscriptionId`
models the property `this.subscriptionId` of the `StratumServer` object:
no code ever assigns it, so it is `none` (`undefined`). -/
structure ServerState where
  stratumClients : List (String × Nat)
  serverSubscriptionId : Option String
  serverEvents : List String
deriving DecidableEq

/-- JS property-key coercion: `obj[undefined]` addresses the key
`"undefined"`. -/
def jsPropertyKey : Option String → String
  | none => "undefined"
  | some s => s

/-- Method `removeStratumClientBySubId` (lines 662-664):
`delete this.stratumClients[subscriptionId]`. -/
def removeStratumClientBySubId (st : ServerState) (subscriptionId : String) :
    ServerState :=
  { st with stratumClients := st.stratumClients.filter (fun e => e.1 != subscriptionId) }

/-- The handler `handleNewClient` wires for the client's `socketDisconnect`
event (lines 632-634).  It is an arrow function inside a class method, so
`this` is the `StratumServer`: it deletes
`stratumClients[this.subscriptionId]` — the server's own (never assigned)
`subscriptionId`, not the connection's — then emits `client.disconnected`. -/
def serverSocketDisconnectHandler (st : ServerState) : ServerState :=
  let st1 := removeStratumClientBySubId st (jsPropertyKey st.serverSubscriptionId)
  { st1 with serverEvents := st1.serverEvents ++ ["client.disconnected"] }

/-- The two event-emitter objects the disconnect path involves. -/
inductive EmitterTarget where
  | socket : EmitterTarget
  | client : EmitterTarget
deriving DecidableEq

/-- The listeners the source registers on each emitter for the event names
dispatched here.  `setupSocket` registers `'close'` on the socket; the
socket's other listeners (`'data'`, `'error'`) and the client's
`'checkBan'`/`'triggerBan'` wiring never fire for these names.
`handleNewClient` registers the server's handler for `'socketDisconnect'`
on the client emitter. -/
inductive ListenerId where
  | socketCloseRelay : ListenerId
  | serverOnSocketDisconnect : ListenerId
deriving DecidableEq

/-- Listener table for the dispatched event names (see `ListenerId`). -/
def listenersOn : EmitterTarget → String → List ListenerId
  | EmitterTarget.socket, "close" => [ListenerId.socketCloseRelay]
  | EmitterTarget.client, "socketDisconnect" => [ListenerId.serverOnSocketDisconnect]
  | _, _ => []

/-- Run `emitter.emit(name)` on the server state, with fuel bounding the
dynamic emit depth.  The `'close'` listener is
`function () { this.emit('socketDisconnect'); }` — a plain `function`, so
its `this` is the *socket*: the relay re-emits on the socket emitter. -/
def emitOn : Nat → EmitterTarget → String → ServerState → ServerState
  | 0, _, _, st => st
  | fuel + 1, t, ev, st =>
    (listenersOn t ev).foldl
      (fun s l =>
        match l with
        | ListenerId.serverOnSocketDisconnect => serverSocketDisconnectHandler s
        | ListenerId.socketCloseRelay =>
          emitOn fuel EmitterTarget.socket "socketDisconnect" s)
      st

/-- What happens to the server state when a session's socket closes. -/
def onSocketClose (st : ServerState) : ServerState :=
  emitOn 3 EmitterTarget.socket "close" st

/-! ## Stratum server construction and ban purge (lines 570-602) -/

/-- The `banning` config record (spec §6.4: `time` and `purgeInterval` are
in seconds). -/
structure BanningConfig where
  enabled : Bool
  time : Nat
  purgeInterval : Nat
  checkThreshold : Nat
  invalidPercent : Nat
deriving DecidableEq

/-- The options object handed to the `StratumServer` constructor. -/
structure ServerOptions where
  ports : List Nat
  banning : Option BanningConfig
  connectionTimeout : Nat
  jobRebroadcastTimeout : Nat
  tcpProxyProtocol : Bool
deriving DecidableEq

/-- The fields the `StratumServer` constructor (lines 571-579) assigns.
It assigns `authorizeFn`, `bannedMS`, `stratumClients`,
`subscriptionCounter` and `bannedIPs` — and never `this.options`, which
`optionsField` therefore records as `none` (`undefined`). -/
structure StratumServerState where
  authorizeFnSet : Bool
  bannedMS : Option Nat
  stratumClients : List (String × Nat)
  subscriptionCount : Nat
  bannedIPs : List (String × Nat)
  optionsField : Option ServerOptions
deriving DecidableEq

/-- A thrown JS error, here always the `TypeError` from reading a property
of `undefined`. -/
inductive JsError where
  | typeError (readProperty : String) : JsError
deriving DecidableEq

/-- What a successful `init()` (lines 580-603) would produce: the purge
timer when banning is enabled, a TCP listener per configured port, and one
`started` emission once the last listener is up. -/
structure InitResult where
  purgeTimerSet : Bool
  listeningPorts : List Nat
  startedEvents : Nat
deriving DecidableEq

/-- Method `init` (lines 580-603).  Its first statement reads
`this.options.banning`; when `this.options` is `undefined` that read throws
a `TypeError` before any listener is created. -/
def StratumServer_init (st : StratumServerState) : Except JsError InitResult :=
  match st.optionsField with
  | none => Except.error (JsError.typeError "banning")
  | some opts =>
    Except.ok
      { purgeTimerSet :=
          match opts.banning with
          | some b => b.enabled
          | none => false,
        listeningPorts := opts.ports,
        startedEvents := if opts.ports.length > 0 then 1 else 0 }

/-- The constructor `new StratumServer(options, authorizeFn)`
(lines 571-579): assign the fields listed in `StratumServerState` (note:
`this.options` is never assigned), then call `this.init()`. -/
def StratumServer_new (options : ServerOptions) :
    Except JsError (StratumServerState × InitResult) :=
  let st : StratumServerState :=
    { authorizeFnSet := true,
      bannedMS := options.banning.map (fun b => b.time * 1000),
      stratumClients := [],
      subscriptionCount := 0,
      bannedIPs := [],
      optionsField := none }
  (StratumServer_init st).map (fun r => (st, r))

/-- Body of the periodic ban purge (lines 583-590): for each banned ip,
delete it when `Date.now() - banTime > this.options.banning.time` — elapsed
*milliseconds* compared against the raw configured value, which per spec
§6.4 is in *seconds* (elsewhere the code uses `bannedMS = time * 1000`).
Timestamps are in milliseconds. -/
def purgeBanSweep (bannedIPs : List (String × Nat)) (nowMs : Nat)
    (banningTime : Nat) : List (String × Nat) :=
  bannedIPs.filter (fun e => decide (nowMs - e.2 ≤ banningTime))

/-! ## P2P peer message parser (`src/src/peer.ts`, `SetupMessageParser`) -/

/-- Where the bad-magic recovery path ends up. -/
inductive ScanOutcome where
  | resume (preRead : List Nat) : ScanOutcome
  | resumeEmpty : ScanOutcome
  | rangeError : ScanOutcome
deriving DecidableEq

/-- The realignment loop (lines 142-149):
`while (header.readUInt32LE(0) !== this.magicInt && header.length >= 4)
header = header.slice(1);` followed by
`if (header.readUInt32LE(0) === this.magicInt) beginReadingMessage(header);
else beginReadingMessage(new Buffer([]));`.
JS evaluates `header.readUInt32LE(0)` *before* the `header.length >= 4`
guard on every loop test (and again after the loop), and Node throws a
`RangeError` when fewer than 4 bytes remain. -/
def scanForMagic (magic : Nat) : List Nat → ScanOutcome
  | [] =>
    match readUInt32LE? [] with
    | none => ScanOutcome.rangeError
    | some w => if w = magic then ScanOutcome.resume [] else ScanOutcome.resumeEmpty
  | b :: rest =>
    match readUInt32LE? (b :: rest) with
    | none => ScanOutcome.rangeError
    | some w =>
      if w ≠ magic ∧ 4 ≤ (b :: rest).length then scanForMagic magic rest
      else
        match readUInt32LE? (b :: rest) with
        | none => ScanOutcome.rangeError
        | some w2 =>
          if w2 = magic then ScanOutcome.resume (b :: rest)
          else ScanOutcome.resumeEmpty

/-- Outcome of handling one 24-byte header (lines 138-154). -/
inductive HeaderOutcome where
  | needResync (errors : List String) (next : ScanOutcome) : HeaderOutcome
  | parsed (command : List Nat) (lengthBytes : List Nat)
      (checksumBytes : List Nat) : HeaderOutcome
  | rangeError : HeaderOutcome
deriving DecidableEq

/-- The header callback of `beginReadingMessage`: compare the leading u32
with the magic; on mismatch emit `'bad magic number from peer'` once and
run the realignment loop; on match slice out command (bytes 4-16), payload
length (16-20) and checksum (20-24). -/
def processHeader (magic : Nat) (header : List Nat) : HeaderOutcome :=
  match readUInt32LE? header with
  | none => HeaderOutcome.rangeError
  | some msgMagic =>
    if msgMagic ≠ magic then
      HeaderOutcome.needResync ["bad magic number from peer"] (scanForMagic magic header)
    else
      HeaderOutcome.parsed ((header.drop 4).take 12) ((header.drop 16).take 4)
        ((header.drop 20).take 4)

/-! ## Concrete test inputs used by witnesses and counterexamples -/

/-- A single well-formed JSON line, `{"id":1}` followed by a newline. -/
def jsonLine : String := "\x7b\"id\":1\x7d\n"

/-- 1200 repetitions of `jsonLine`: 10800 UTF-8 bytes of complete,
newline-terminated JSON messages — over the 10240-byte flood limit. -/
def floodChunk : String := String.mk ((List.replicate 1200 jsonLine.data).flatten)

/-- A PROXY-protocol preamble line (not valid JSON). -/
def proxyLine : String := "PROXY TCP4 1.2.3.4 5.6.7.8 1 2"

/-- The spec's header-layout example: previous hash `00…01`. -/
def prevHashHex : String :=
  "0000000000000000000000000000000000000000000000000000000000000001"

/-- The spec's header-layout example: Merkle root `00…02`. -/
def merkleRootHex : String :=
  "0000000000000000000000000000000000000000000000000000000000000002"

/-- The spec's header-layout example template: version `0x20000000`,
bits `1d00ffff`. -/
def headerExampleTemplate : BlockTemplate :=
  mkBlockTemplate ⟨prevHashHex, "1d00ffff", 536870912, 1593000000, [], false, []⟩
    "POW"

/-! ## Theorems -/

/-- Helper: `runSubmits` distributes over list append. -/
theorem runSubmits_append (t : BlockTemplate) (xs ys : List SubmitTuple) :
    runSubmits t (xs ++ ys) =
      ((runSubmits t xs).1 ++ (runSubmits (runSubmits t xs).2 ys).1,
       (runSubmits (runSubmits t xs).2 ys).2) := by
  induction xs generalizing t with
  | nil => simp [runSubmits]
  | cons x xs ih => simp [runSubmits, ih]

/-- Helper: a string is among the fingerprints recorded after a run of
`registerSubmit` calls iff it was recorded before or is the fingerprint of
one of the processed tuples. -/
theorem mem_runSubmits_submits (xs : List SubmitTuple) (t : BlockTemplate)
    (s : String) :
    s ∈ (runSubmits t xs).2.submits ↔
      s ∈ t.submits ∨ s ∈ xs.map fingerprintOf := by
  induction xs generalizing t with
  | nil => simp [runSubmits]
  | cons x xs ih =>
    simp only [runSubmits, List.map_cons, List.mem_cons]
    by_cases hx : fingerprintOf x ∈ t.submits
    · rw [show registerSubmit t x.1 x.2.1 x.2.2.1 x.2.2.2 = (false, t) by
        simp [registerSubmit, fingerprintOf] at hx ⊢; exact hx]
      rw [ih]
      constructor
      · tauto
      · rintro (h | h | h)
        · tauto
        · subst h; exact Or.inl hx
        · tauto
    · rw [show registerSubmit t x.1 x.2.1 x.2.2.1 x.2.2.2 =
          (true, { t with submits := t.submits ++ [fingerprintOf x] }) by
        simp [registerSubmit, fingerprintOf] at hx ⊢; exact hx]
      rw [ih]
      simp only [List.mem_append, List.mem_singleton]
      tauto

/-- Claim C1 (corrected): on a fresh template, a `registerSubmit` call
returns `true` iff no earlier call had the same *concatenated fingerprint*
`extraNonce1 ++ extraNonce2 ++ nTime ++ nonce`.  (The claim's per-tuple
reading fails: distinct tuples with equal concatenations collide, see the
counterexample.) -/
theorem registerSubmit_true_iff_new_fingerprint (rpc : RpcData) (reward : String)
    (prior : List SubmitTuple) (x : SubmitTuple) :
    (runSubmits (mkBlockTemplate rpc reward) (prior ++ [x])).1.getLast? = some true ↔
      fingerprintOf x ∉ prior.map fingerprintOf := by
  rw [runSubmits_append]
  have hone : (runSubmits (runSubmits (mkBlockTemplate rpc reward) prior).2 [x]).1 =
      [(registerSubmit (runSubmits (mkBlockTemplate rpc reward) prior).2
          x.1 x.2.1 x.2.2.1 x.2.2.2).1] := by
    simp [runSubmits]
  rw [hone, List.getLast?_concat]
  have hmem := mem_runSubmits_submits prior (mkBlockTemplate rpc reward)
    (fingerprintOf x)
  simp only [mkBlockTemplate, List.not_mem_nil, false_or] at hmem
  by_cases h : fingerprintOf x ∈
      (runSubmits (mkBlockTemplate rpc reward) prior).2.submits
  · rw [show (registerSubmit (runSubmits (mkBlockTemplate rpc reward) prior).2
        x.1 x.2.1 x.2.2.1 x.2.2.2).1 = false by
      simp only [fingerprintOf] at h; simp [registerSubmit, h]]
    simp only [Option.some_inj]
    constructor
    · intro hfalse; cases hfalse
    · intro hnot; exact absurd (hmem.mp h) hnot
  · rw [show (registerSubmit (runSubmits (mkBlockTemplate rpc reward) prior).2
        x.1 x.2.1 x.2.2.1 x.2.2.2).1 = true by
      simp only [fingerprintOf] at h; simp [registerSubmit, h]]
    simp only [Option.some_inj, true_iff]
    intro hcontra
    exact h (hmem.mpr hcontra)

/-- Claim C1 counterexample: the two tuples are distinct, yet the second
one's very first submission returns `false`, because the concatenated
fingerprints coincide (`"ab"+"cd" = "abc"+"d"`). -/
theorem registerSubmit_tuple_collision :
    (runSubmits (mkBlockTemplate ⟨"", "", 0, 0, [], false, []⟩ "POW")
        [("ab", "cd", "ef", "01"), ("abc", "d", "ef", "01")]).1 = [true, false] ∧
      (("ab", "cd", "ef", "01") : SubmitTuple) ≠ ("abc", "d", "ef", "01") := by
  constructor
  · decide
  · decide

/-- Claim C6: with `banning.time = 600` (seconds), the purge sweep deletes a
ban that is only 700 *milliseconds* old — the loop compares elapsed
milliseconds against the seconds-valued config (`checkBan`, by contrast,
uses `bannedMS = time * 1000`), so entries younger than `banning.time`
seconds are not kept. -/
theorem purgeBanSweep_drops_young_entry :
    purgeBanSweep [("1.2.3.4", 0)] 700 600 = [] ∧ 700 < 600 * 1000 := by
  constructor
  · decide
  · decide

/-- Claim C9: constructing a `StratumServer` always throws: the constructor
never assigns `this.options`, so `init()`'s read of `this.options.banning`
is a `TypeError` on `undefined` — no TCP listener is ever created and
`started` is never emitted. -/
theorem StratumServer_new_always_throws (options : ServerOptions) :
    StratumServer_new options = Except.error (JsError.typeError "banning") := by
  rfl

/-- Claim C3 counterexample: a session whose difficulty was set to 8 by
`manuallySetValues` (which sends nothing) stages 8 via
`enqueueNextDifficulty`; the next `sendMiningJob` delivers the
`mining.notify` with *no* preceding `mining.set_difficulty` — and no
`set_difficulty` carrying 8 was ever sent on this session —
because `sendDifficulty` is a no-op when the argument equals the current
difficulty. -/
theorem sendMiningJob_skips_equal_pending :
    ((enqueueNextDifficulty
        (manuallySetValues initClient ⟨some 8, none, none, some "f000"⟩) 8).1).pendingDifficulty
      = some 8 ∧
    (sendMiningJob
        (enqueueNextDifficulty
          (manuallySetValues initClient ⟨some 8, none, none, some "f000"⟩) 8).1
        "job1").2 = [StratumNotification.notify "job1"] := by
  constructor
  · decide
  · decide

/-- Claim C3 (amended): when a difficulty `d` is staged, `sendMiningJob`
clears the pending slot and sends the `mining.set_difficulty d` immediately
before the `mining.notify` — unless `d` strictly equals the session's
current difficulty, in which case `sendDifficulty` is a no-op and the
notify goes out with no preceding set_difficulty. -/
theorem sendMiningJob_flushes_pending (c : ClientState) (params : String) (d : ℚ)
    (h : c.pendingDifficulty = some d) :
    (sendMiningJob c params).2 =
      (if c.difficulty = some d then [StratumNotification.notify params]
       else [StratumNotification.set_difficulty d,
             StratumNotification.notify params]) ∧
    (sendMiningJob c params).1.pendingDifficulty = none := by
  unfold sendMiningJob
  rw [h]
  unfold sendDifficulty
  by_cases hd : c.difficulty = some d
  · simp [hd]
  · simp [hd]

/-- Witness for `sendMiningJob_flushes_pending` at a session with current
difficulty 8 and staged difficulty 16. -/
theorem sendMiningJob_flushes_pending_witness :
    (sendMiningJob ⟨some 8, none, some 16, none⟩ "jobX").2 =
      (if (⟨some 8, none, some 16, none⟩ : ClientState).difficulty = some 16
       then [StratumNotification.notify "jobX"]
       else [StratumNotification.set_difficulty 16,
             StratumNotification.notify "jobX"]) ∧
    (sendMiningJob ⟨some 8, none, some 16, none⟩ "jobX").1.pendingDifficulty
      = none :=
  sendMiningJob_flushes_pending ⟨some 8, none, some 16, none⟩ "jobX" 16 rfl

/-- Claim C4: when the socket of the (sole) registered session closes, the
server state is unchanged — the entry survives in `stratumClients` and
`client.disconnected` is never emitted.  The `'close'` listener is a plain
`function`, so its `this.emit('socketDisconnect')` fires on the socket,
where nobody listens; and even the server's disconnect handler, invoked
directly, deletes `stratumClients[this.subscriptionId]` with the *server's*
(undefined) `subscriptionId`, leaving the session registered. -/
theorem onSocketClose_leaves_client_registered :
    onSocketClose ⟨[("deadbeefcafebabe0100000000000000", 1)], none, []⟩ =
      ⟨[("deadbeefcafebabe0100000000000000", 1)], none, []⟩ ∧
    (serverSocketDisconnectHandler
        ⟨[("deadbeefcafebabe0100000000000000", 1)], none, []⟩).stratumClients =
      [("deadbeefcafebabe0100000000000000", 1)] := by
  constructor
  · decide
  · decide

/-- Claim C7 counterexample: with TCP-proxy mode *disabled* and a chunk
beginning with `"PROXY"` (which is not JSON), the session emits
`malformedMessage` and destroys the socket — the claim says this is
precisely the silent case.  Conversely, with proxy mode *enabled* the same
chunk is swallowed silently. -/
theorem malformed_proxy_polarity :
    startsWithProxy proxyLine = true ∧
    processData (fun _ => (none : Option Nat)) (fun _ => true) false ""
        (proxyLine ++ "\n") =
      ⟨"", [SessionEvent.malformedMessage proxyLine], true⟩ ∧
    processData (fun _ => (none : Option Nat)) (fun _ => true) true ""
        (proxyLine ++ "\n") = ⟨"", [], false⟩ := by
  refine ⟨by decide, by decide, by decide⟩

/-- Claim C7 (amended): a line that fails to parse is swallowed silently
precisely when TCP-proxy mode is *enabled* and the chunk begins with
`"PROXY"`; in every other case `malformedMessage` is emitted and the socket
destroyed. -/
theorem malformedEmits_silent_iff (tcpProxyProtocol : Bool) (d : String) :
    malformedEmits tcpProxyProtocol d = false ↔
      tcpProxyProtocol = true ∧ startsWithProxy d = true := by
  cases tcpProxyProtocol <;> simp [malformedEmits]

/-- Claim C10: whenever the receive buffer plus the incoming chunk exceeds
10240 UTF-8 bytes, the handler clears the buffer, emits exactly
`socketFlooded` and destroys the socket, dispatching nothing — regardless
of any newlines or parseable messages in the data. -/
theorem processData_flood {α : Type} (parse : String → Option α)
    (truthy : α → Bool) (tcpProxyProtocol : Bool) (dataBufferPrev chunk : String)
    (h : byteLengthUtf8 (dataBufferPrev ++ chunk) > 10240) :
    processData parse truthy tcpProxyProtocol dataBufferPrev chunk =
      ⟨"", [SessionEvent.socketFlooded], true⟩ := by
  unfold processData
  rw [if_pos h]

/-- Helper: prepending the empty buffer changes nothing. -/
theorem empty_append_str (s : String) : "" ++ s = s := by
  obtain ⟨l⟩ := s
  show String.mk ([] ++ l) = String.mk l
  rw [List.nil_append]

/-- Helper: the flood fixture is 10800 UTF-8 bytes long. -/
theorem byteLengthUtf8_floodChunk : byteLengthUtf8 floodChunk = 10800 := by
  show ((List.replicate 1200 jsonLine.data).flatten.map utf8SizeOfChar).sum = 10800
  rw [List.map_flatten, List.map_replicate, List.sum_flatten, List.map_replicate,
    List.sum_replicate]
  decide

/-- Witness for `processData_flood`: 10800 bytes of complete well-formed
newline-terminated JSON messages still only flood. -/
theorem processData_flood_witness :
    byteLengthUtf8 ("" ++ floodChunk) > 10240 ∧
    processData (fun s => some s) (fun _ => true) false "" floodChunk =
      ⟨"", [SessionEvent.socketFlooded], true⟩ :=
  ⟨by rw [empty_append_str, byteLengthUtf8_floodChunk]; decide,
   processData_flood (fun s => some s) (fun _ => true) false "" floodChunk
     (by rw [empty_append_str, byteLengthUtf8_floodChunk]; decide)⟩

/-- Claim C8: the bad-magic recovery.  With a 24-byte header containing no
aligned magic anywhere (all zeros against magic `f9beb4d9`), the loop
condition re-evaluates `header.readUInt32LE(0)` on a 3-byte buffer and
throws a `RangeError` instead of resuming from an empty buffer.  The
spec's own scenario still works: 7 junk bytes followed by a frame start
yield exactly one `'bad magic number from peer'` error and resumption at
the aligned 17 remaining header bytes. -/
theorem scanForMagic_overreads :
    processHeader 0xd9b4bef9 (List.replicate 24 0) =
      HeaderOutcome.needResync ["bad magic number from peer"]
        ScanOutcome.rangeError ∧
    processHeader 0xd9b4bef9
        ([1, 1, 1, 1, 1, 1, 1] ++ ([0xf9, 0xbe, 0xb4, 0xd9] ++ List.replicate 13 0)) =
      HeaderOutcome.needResync ["bad magic number from peer"]
        (ScanOutcome.resume ([0xf9, 0xbe, 0xb4, 0xd9] ++ List.replicate 13 0)) := by
  constructor
  · decide
  · decide

/-- Helper: `decodeVarInt` reads back exactly what `varIntBuffer` wrote,
for any count below `2^64`, leaving the rest of the stream intact. -/
theorem decodeVarInt_varIntBuffer (n : Nat) (rest : List Nat)
    (h : n < 18446744073709551616) :
    decodeVarInt (varIntBuffer n ++ rest) = some (n, rest) := by
  unfold varIntBuffer
  by_cases h1 : n < 0xfd
  · simp only [if_pos h1]
    unfold decodeVarInt
    simp only [List.cons_append, if_pos h1, List.nil_append]
  · by_cases h2 : n < 0x10000
    · simp only [if_neg h1, if_pos h2]
      unfold decodeVarInt u16le
      norm_num
      omega
    · by_cases h3 : n < 0x100000000
      · simp only [if_neg h1, if_neg h2, if_pos h3]
        unfold decodeVarInt u32le
        norm_num
        omega
      · simp only [if_neg h1, if_neg h2, if_neg h3]
        unfold decodeVarInt u64le
        norm_num
        omega

/-- Claim C5: `serializeBlock` is the stated concatenation
`header ++ varInt(txCount+1) ++ coinbase ++ transactionData ++ voteData ++
(POS ? 0x00 : ε)`; `voteData` is empty without `masternode_payments` and is
`varInt(votes.len) ++ concat(votes)` with it; and the CompactSize field
right after the header decodes to `transactions.length + 1`. -/
theorem serializeBlock_layout (t : BlockTemplate) (header coinbase : List Nat)
    (h : t.rpcData.transactions.length + 1 < 18446744073709551616) :
    serializeBlock t header coinbase =
      header ++ varIntBuffer (t.rpcData.transactions.length + 1) ++ coinbase ++
        transactionData t ++ getVoteData t ++
        (if t.reward = "POS" then [0] else []) ∧
    decodeVarInt ((serializeBlock t header coinbase).drop header.length) =
      some (t.rpcData.transactions.length + 1,
        coinbase ++ transactionData t ++ getVoteData t ++
          (if t.reward = "POS" then [0] else [])) ∧
    (t.rpcData.masternode_payments = false → getVoteData t = []) ∧
    (t.rpcData.masternode_payments = true →
      getVoteData t = varIntBuffer t.rpcData.votes.length ++
        (t.rpcData.votes.map hexPairs).flatten) := by
  refine ⟨rfl, ?_, ?_, ?_⟩
  · unfold serializeBlock
    rw [show header ++ varIntBuffer (t.rpcData.transactions.length + 1) ++
        coinbase ++ transactionData t ++ getVoteData t ++
        (if t.reward = "POS" then [0] else []) =
      header ++ (varIntBuffer (t.rpcData.transactions.length + 1) ++
        (coinbase ++ transactionData t ++ getVoteData t ++
          (if t.reward = "POS" then [0] else []))) from by
        simp [List.append_assoc]]
    rw [List.drop_left]
    exact decodeVarInt_varIntBuffer _ _ h
  · intro hm; simp [getVoteData, hm]
  · intro hm; simp [getVoteData, hm]

/-- Witness for `serializeBlock_layout`: a template with two transactions,
masternode payments with one vote, and POS reward. -/
theorem serializeBlock_layout_witness :
    decodeVarInt ((serializeBlock
        (mkBlockTemplate ⟨"aa", "1d00ffff", 2, 5, ["0102", "0304"], true, ["beef"]⟩
          "POS") [9, 9] [8, 8]).drop 2) =
      some (3, [8, 8] ++ ([1, 2] ++ [3, 4]) ++ ([1] ++ [0xbe, 0xef]) ++ [0]) := by
  have h := (serializeBlock_layout
    (mkBlockTemplate ⟨"aa", "1d00ffff", 2, 5, ["0102", "0304"], true, ["beef"]⟩
      "POS") [9, 9] [8, 8] (by decide)).2.1
  revert h
  decide

/-- Helper: writing `bytes` at offset `pos` of a buffer whose prefix up to
`pos` is `a` overwrites exactly the next `bytes.length` bytes. -/
theorem writeBytes_exact (a b c bytes : List Nat) (pos : Nat)
    (ha : a.length = pos) (hb : bytes.length = b.length) :
    writeBytes (a ++ (b ++ c)) pos bytes = a ++ (bytes ++ c) := by
  subst ha
  unfold writeBytes
  have hlen : (a ++ (b ++ c)).length - a.length = b.length + c.length := by simp
  rw [hlen, List.take_of_length_le (le_trans (le_of_eq hb) (Nat.le_add_right _ _)),
    List.take_left]
  rw [show a.length + bytes.length = (a ++ b).length by simp [hb]]
  rw [show a ++ (b ++ c) = (a ++ b) ++ c from (List.append_assoc a b c).symm,
    List.drop_left, List.append_assoc]

/-- Claim C2: with full-length hex inputs, `serializeHeader` yields exactly
80 bytes laid out as `version(4) ‖ prevHash(32) ‖ merkleRoot(32) ‖
nTime(4) ‖ bits(4) ‖ nonce(4)` — each field being the byte reversal of the
bytes that were written into the reversed-order buffer — and decoding each
field (reversing its bytes; reading the version little-endian) recovers
the inputs. -/
theorem serializeHeader_layout (t : BlockTemplate) (merkleRoot nTime nonce : String)
    (mB tB nB bB pB : List Nat)
    (hm : hexPairs merkleRoot = mB) (hm32 : mB.length = 32)
    (ht : hexPairs nTime = tB) (ht4 : tB.length = 4)
    (hn : hexPairs nonce = nB) (hn4 : nB.length = 4)
    (hb : hexPairs t.rpcData.bits = bB) (hb4 : bB.length = 4)
    (hp : hexPairs t.rpcData.previousblockhash = pB) (hp32 : pB.length = 32) :
    serializeHeader t merkleRoot nTime nonce =
      (u32be t.rpcData.version).reverse ++ pB.reverse ++ mB.reverse ++
        tB.reverse ++ bB.reverse ++ nB.reverse ∧
    (serializeHeader t merkleRoot nTime nonce).length = 80 ∧
    ((serializeHeader t merkleRoot nTime nonce).take 4).reverse =
      u32be t.rpcData.version ∧
    (((serializeHeader t merkleRoot nTime nonce).drop 4).take 32).reverse = pB ∧
    (((serializeHeader t merkleRoot nTime nonce).drop 36).take 32).reverse = mB ∧
    (((serializeHeader t merkleRoot nTime nonce).drop 68).take 4).reverse = tB ∧
    (((serializeHeader t merkleRoot nTime nonce).drop 72).take 4).reverse = bB ∧
    (((serializeHeader t merkleRoot nTime nonce).drop 76).take 4).reverse = nB ∧
    (t.rpcData.version < 4294967296 →
      readUInt32LE? (serializeHeader t merkleRoot nTime nonce) =
        some t.rpcData.version) := by
  have hu4 : (u32be t.rpcData.version).length = 4 := rfl
  have e1 : bufWriteHex (List.replicate 80 0) nonce 0 4 =
      nB ++ List.replicate 76 0 := by
    unfold bufWriteHex
    rw [hn, List.take_of_length_le (by omega)]
    have h80 : List.replicate 80 (0 : Nat) =
        [] ++ (List.replicate 4 0 ++ List.replicate 76 0) := by
      rw [List.nil_append, ← List.replicate_add]
    rw [h80, writeBytes_exact [] (List.replicate 4 0) (List.replicate 76 0) nB 0
      rfl (by simp [hn4]), List.nil_append]
  have e2 : bufWriteHex (nB ++ List.replicate 76 0) t.rpcData.bits 4 4 =
      nB ++ (bB ++ List.replicate 72 0) := by
    unfold bufWriteHex
    rw [hb, List.take_of_length_le (by omega)]
    have h76 : List.replicate 76 (0 : Nat) =
        List.replicate 4 0 ++ List.replicate 72 0 := by
      rw [← List.replicate_add]
    rw [h76, writeBytes_exact nB (List.replicate 4 0) (List.replicate 72 0) bB 4
      hn4 (by simp [hb4])]
  have e3 : bufWriteHex (nB ++ (bB ++ List.replicate 72 0)) nTime 8 4 =
      (nB ++ bB) ++ (tB ++ List.replicate 68 0) := by
    unfold bufWriteHex
    rw [ht, List.take_of_length_le (by omega)]
    have h72 : List.replicate 72 (0 : Nat) =
        List.replicate 4 0 ++ List.replicate 68 0 := by
      rw [← List.replicate_add]
    rw [h72, ← List.append_assoc nB bB _,
      writeBytes_exact (nB ++ bB) (List.replicate 4 0) (List.replicate 68 0) tB 8
        (by simp [hn4, hb4]) (by simp [ht4])]
  have e4 : bufWriteHex ((nB ++ bB) ++ (tB ++ List.replicate 68 0)) merkleRoot
      12 32 = ((nB ++ bB) ++ tB) ++ (mB ++ List.replicate 36 0) := by
    unfold bufWriteHex
    rw [hm, List.take_of_length_le (by omega)]
    have h68 : List.replicate 68 (0 : Nat) =
        List.replicate 32 0 ++ List.replicate 36 0 := by
      rw [← List.replicate_add]
    rw [h68, ← List.append_assoc (nB ++ bB) tB _,
      writeBytes_exact ((nB ++ bB) ++ tB) (List.replicate 32 0)
        (List.replicate 36 0) mB 12 (by simp [hn4, hb4, ht4]) (by simp [hm32])]
  have e5 : bufWriteHex (((nB ++ bB) ++ tB) ++ (mB ++ List.replicate 36 0))
      t.rpcData.previousblockhash 44 32 =
      (((nB ++ bB) ++ tB) ++ mB) ++ (pB ++ List.replicate 4 0) := by
    unfold bufWriteHex
    rw [hp, List.take_of_length_le (by omega)]
    have h36 : List.replicate 36 (0 : Nat) =
        List.replicate 32 0 ++ List.replicate 4 0 := by
      rw [← List.replicate_add]
    rw [h36, ← List.append_assoc ((nB ++ bB) ++ tB) mB _,
      writeBytes_exact (((nB ++ bB) ++ tB) ++ mB) (List.replicate 32 0)
        (List.replicate 4 0) pB 44 (by simp [hn4, hb4, ht4, hm32])
        (by simp [hp32])]
  have e6 : writeUInt32BE ((((nB ++ bB) ++ tB) ++ mB) ++ (pB ++ List.replicate 4 0))
      t.rpcData.version 76 =
      ((((nB ++ bB) ++ tB) ++ mB) ++ pB) ++ (u32be t.rpcData.version ++ []) := by
    unfold writeUInt32BE
    have h4 : List.replicate 4 (0 : Nat) = List.replicate 4 0 ++ [] :=
      (List.append_nil _).symm
    rw [h4, ← List.append_assoc ((((nB ++ bB) ++ tB) ++ mB)) pB _,
      writeBytes_exact ((((nB ++ bB) ++ tB) ++ mB) ++ pB) (List.replicate 4 0) []
        (u32be t.rpcData.version) 76 (by simp [hn4, hb4, ht4, hm32, hp32])
        (by simp [u32be])]
  have key : serializeHeader t merkleRoot nTime nonce =
      (u32be t.rpcData.version).reverse ++ pB.reverse ++ mB.reverse ++
        tB.reverse ++ bB.reverse ++ nB.reverse := by
    simp only [serializeHeader]
    rw [e1, e2, e3, e4, e5, e6]
    simp [reverseBuffer, List.reverse_append, List.append_assoc]
  refine ⟨key, ?_, ?_, ?_, ?_, ?_, ?_, ?_, ?_⟩
  · rw [key]
    simp only [List.length_append, List.length_reverse, hu4, hm32, ht4, hn4,
      hb4, hp32]
  · have hsplit : serializeHeader t merkleRoot nTime nonce =
        (u32be t.rpcData.version).reverse ++
          (pB.reverse ++ (mB.reverse ++ (tB.reverse ++ (bB.reverse ++
            nB.reverse)))) := by
      rw [key]; simp [List.append_assoc]
    rw [hsplit, List.take_left' (by simp [hu4])]
    exact List.reverse_reverse _
  · have hsplit : serializeHeader t merkleRoot nTime nonce =
        (u32be t.rpcData.version).reverse ++
          (pB.reverse ++ (mB.reverse ++ (tB.reverse ++ (bB.reverse ++
            nB.reverse)))) := by
      rw [key]; simp [List.append_assoc]
    rw [hsplit, List.drop_left' (by simp [hu4]),
      List.take_left' (by simp [hp32])]
    exact List.reverse_reverse _
  · have hsplit : serializeHeader t merkleRoot nTime nonce =
        ((u32be t.rpcData.version).reverse ++ pB.reverse) ++
          (mB.reverse ++ (tB.reverse ++ (bB.reverse ++ nB.reverse))) := by
      rw [key]; simp [List.append_assoc]
    rw [hsplit, List.drop_left' (by simp [hu4, hp32]),
      List.take_left' (by simp [hm32])]
    exact List.reverse_reverse _
  · have hsplit : serializeHeader t merkleRoot nTime nonce =
        (((u32be t.rpcData.version).reverse ++ pB.reverse) ++ mB.reverse) ++
          (tB.reverse ++ (bB.reverse ++ nB.reverse)) := by
      rw [key]; simp [List.append_assoc]
    rw [hsplit, List.drop_left' (by simp [hu4, hp32, hm32]),
      List.take_left' (by simp [ht4])]
    exact List.reverse_reverse _
  · have hsplit : serializeHeader t merkleRoot nTime nonce =
        ((((u32be t.rpcData.version).reverse ++ pB.reverse) ++ mB.reverse) ++
          tB.reverse) ++ (bB.reverse ++ nB.reverse) := by
      rw [key]; simp [List.append_assoc]
    rw [hsplit, List.drop_left' (by simp [hu4, hp32, hm32, ht4]),
      List.take_left' (by simp [hb4])]
    exact List.reverse_reverse _
  · rw [key, List.drop_left' (by simp [hu4, hp32, hm32, ht4, hb4])]
    rw [List.take_of_length_le (by simp [hn4])]
    exact List.reverse_reverse _
  · intro hv
    rw [key]
    simp only [u32be, List.reverse_cons, List.reverse_nil, List.nil_append,
      List.cons_append, List.append_assoc]
    unfold readUInt32LE?
    rw [Option.some_inj]
    omega

/-- Witness for `serializeHeader_layout` at the spec's concrete example
(version `0x20000000`, prevHash `00…01`, merkleRoot `00…02`,
nTime `5f000000`, bits `1d00ffff`, nonce `00000000`). -/
theorem serializeHeader_layout_witness :
    (serializeHeader headerExampleTemplate merkleRootHex "5f000000"
      "00000000").length = 80 ∧
    (((serializeHeader headerExampleTemplate merkleRootHex "5f000000"
      "00000000").drop 36).take 32).reverse = List.replicate 31 0 ++ [2] ∧
    readUInt32LE? (serializeHeader headerExampleTemplate merkleRootHex
      "5f000000" "00000000") = some 536870912 := by
  have h := serializeHeader_layout headerExampleTemplate merkleRootHex
    "5f000000" "00000000"
    (List.replicate 31 0 ++ [2]) [95, 0, 0, 0] [0, 0, 0, 0] [29, 0, 255, 255]
    (List.replicate 31 0 ++ [1])
    (by decide) (by decide) (by decide) (by decide) (by decide) (by decide)
    (by decide) (by decide) (by decide) (by decide)
  exact ⟨h.2.1, h.2.2.2.2.1, h.2.2.2.2.2.2.2.2 (by decide)⟩

end TsXStratum
